import Mathlib

/-
Verification of the guest-address sanitizer core (libafl_qemu/src/asan.rs)
against its natural-language specification.

The Rust file under scrutiny is src/libafl_qemu/src/asan.rs.  Pure data and
control flow of that file is embedded directly.  The asan_giovese C library
(shadow map, allocation registry, reporter) is only declared in asan.rs via
an extern block; its behaviour is modelled from the specification (sections
4.1, 4.2 and 4.4), with each such definition carrying a doc comment that
starts with "Modelled from the spec:".
-/

namespace Asan

/-- Reserved fake-syscall number, from asan.rs line 15
(pub const QASAN_FAKESYS_NR: i32 = 0xa2a4). -/
def QASAN_FAKESYS_NR : Int := 0xa2a4

/-- QasanAction enum from asan.rs lines 17-31 (repr u64, discriminants 0..10
in declaration order). -/
inductive QasanAction
  | CheckLoad
  | CheckStore
  | Poison
  | UserPoison
  | UnPoison
  | IsPoison
  | Alloc
  | Dealloc
  | Enable
  | Disable
  | SwapState
deriving DecidableEq, Repr

/-- Decoding of a u64 into a QasanAction, as done by
QasanAction::try_from (TryFromPrimitive on repr u64): values 0..10 decode
to the variants in declaration order, everything else fails. -/
def QasanAction.tryFrom : Nat → Option QasanAction
  | 0 => some .CheckLoad
  | 1 => some .CheckStore
  | 2 => some .Poison
  | 3 => some .UserPoison
  | 4 => some .UnPoison
  | 5 => some .IsPoison
  | 6 => some .Alloc
  | 7 => some .Dealloc
  | 8 => some .Enable
  | 9 => some .Disable
  | 10 => some .SwapState
  | _ => none

/-- PoisonKind enum from asan.rs lines 33-57 (repr u8, explicit
discriminants). -/
inductive PoisonKind
  | Valid
  | Partial1
  | Partial2
  | Partial3
  | Partial4
  | Partial5
  | Partial6
  | Partial7
  | ArrayCookie
  | StackRz
  | StackLeftRz
  | StackMidRz
  | StackRightRz
  | StacKFreed
  | StackOOScope
  | GlobalRz
  | HeapRz
  | User
  | HeapLeftRz
  | HeapRightRz
  | HeapFreed
deriving DecidableEq, Repr

/-- Byte value of each PoisonKind, matching the explicit discriminants in
asan.rs lines 36-56. -/
def PoisonKind.toByte : PoisonKind → Nat
  | .Valid => 0
  | .Partial1 => 1
  | .Partial2 => 2
  | .Partial3 => 3
  | .Partial4 => 4
  | .Partial5 => 5
  | .Partial6 => 6
  | .Partial7 => 7
  | .ArrayCookie => 0xac
  | .StackRz => 0xf0
  | .StackLeftRz => 0xf1
  | .StackMidRz => 0xf2
  | .StackRightRz => 0xf3
  | .StacKFreed => 0xf5
  | .StackOOScope => 0xf8
  | .GlobalRz => 0xf9
  | .HeapRz => 0xe9
  | .User => 0xf7
  | .HeapLeftRz => 0xfa
  | .HeapRightRz => 0xfb
  | .HeapFreed => 0xfd

/-- Decoding of a u8 into a PoisonKind, as done by PoisonKind::try_from
(TryFromPrimitive on repr u8): exactly the explicit discriminants decode,
everything else fails. -/
def PoisonKind.tryFrom : Nat → Option PoisonKind
  | 0 => some .Valid
  | 1 => some .Partial1
  | 2 => some .Partial2
  | 3 => some .Partial3
  | 4 => some .Partial4
  | 5 => some .Partial5
  | 6 => some .Partial6
  | 7 => some .Partial7
  | 0xac => some .ArrayCookie
  | 0xf0 => some .StackRz
  | 0xf1 => some .StackLeftRz
  | 0xf2 => some .StackMidRz
  | 0xf3 => some .StackRightRz
  | 0xf5 => some .StacKFreed
  | 0xf8 => some .StackOOScope
  | 0xf9 => some .GlobalRz
  | 0xe9 => some .HeapRz
  | 0xf7 => some .User
  | 0xfa => some .HeapLeftRz
  | 0xfb => some .HeapRightRz
  | 0xfd => some .HeapFreed
  | _ => none

/-- CallContext from asan.rs lines 59-64.  The Rust code only ever creates
contexts with libc::calloc (all fields zeroed: null addresses pointer,
tid 0, size 0); the null addresses pointer is modelled as none. -/
structure CallContext where
  addresses : Option (List Nat)
  tid : Int
  size : Nat
deriving DecidableEq, Repr

/-- Zero-initialised call context, the result of
libc::calloc(size_of CallContext, 1) in QemuAsanHelper::alloc and
QemuAsanHelper::dealloc. -/
def freshCallContext : CallContext := { addresses := none, tid := 0, size := 0 }

/-- ChunkInfo from asan.rs lines 66-72.  The source field named end is
called stop here because end is a Lean keyword.  free_ctx is none while
the chunk is allocated (NULL in the source). -/
structure ChunkInfo where
  start : Nat
  stop : Nat
  alloc_ctx : CallContext
  free_ctx : Option CallContext
deriving DecidableEq, Repr

/-- Modelled from the spec: the instrumentation filter (section 6,
"Filter mode: All, AllowList(ranges), DenyList(ranges)").  The type
QemuInstrumentationFilter lives in helper.rs, which is not among the
source files; asan.rs uses its variant None and its method allowed. -/
inductive QemuInstrumentationFilter
  | None
  | AllowList (ranges : List (Nat × Nat))
  | DenyList (ranges : List (Nat × Nat))
deriving DecidableEq, Repr

/-- Modelled from the spec: whether an address passes the filter
(section 4.5, the filter decides whether instrumentation is emitted). -/
def QemuInstrumentationFilter.allowed : QemuInstrumentationFilter → Nat → Bool
  | .None, _ => true
  | .AllowList rs, a => rs.any (fun r => decide (r.1 ≤ a) && decide (a < r.2))
  | .DenyList rs, a => !(rs.any (fun r => decide (r.1 ≤ a) && decide (a < r.2)))

/-- QemuAsanHelper state from asan.rs lines 169-172. -/
structure QemuAsanHelper where
  enabled : Bool
  filter : QemuInstrumentationFilter
deriving DecidableEq, Repr

/-- Values read from the emulator registers by the Rust code
(emu::read_reg(Regs::Pc) and emu::read_reg(Regs::Sp), each already
passed through unwrap_or(u64::MAX)). -/
structure EmuRegs where
  pc : Nat
  sp : Nat
deriving DecidableEq, Repr

/-- Combined sanitizer state: the helper struct from asan.rs plus the
process-wide asan_giovese state (shadow map and allocation registry) that
the extern functions mutate.  The shadow map is a total map from aligned
8-byte cell index to one tag byte (section 4.1). -/
structure AsanState where
  helper : QemuAsanHelper
  shadow : Nat → Nat
  chunks : List ChunkInfo

/-- Modelled from the spec: the reason tags of section 3 (every named tag
other than Valid and Partial1..7), as shadow bytes. -/
def isReasonTag (t : Nat) : Bool :=
  t = 0xac || t = 0xe9 || t = 0xf0 || t = 0xf1 || t = 0xf2 || t = 0xf3 ||
  t = 0xf5 || t = 0xf7 || t = 0xf8 || t = 0xf9 || t = 0xfa || t = 0xfb || t = 0xfd

/-- Modelled from the spec: asan_giovese_poison_region (section 4.1,
poison(addr, n, tag)).  Cells fully covered by [addr, addr+n) are set to
tag.  The partially covered cell in which the region starts mid-cell is
set to Partial_k where k = addr mod 8 is the number of still-valid leading
bytes in that cell, unless the cell already holds a reason tag, in which
case the existing tag wins.  A cell in which the region ends mid-cell has
its leading bytes poisoned, which the Partial encoding of section 3 cannot
express (Partial applies only to the beginning of an 8-byte group), so it
is left unchanged. -/
def poisonRegion (sh : Nat → Nat) (addr n tag : Nat) : Nat → Nat :=
  if n = 0 then sh
  else fun c =>
    if addr ≤ 8 * c ∧ 8 * c + 8 ≤ addr + n then tag
    else if c = addr / 8 ∧ addr % 8 ≠ 0 then
      if isReasonTag (sh c) then sh c else addr % 8
    else sh c

/-- Modelled from the spec: asan_giovese_unpoison_region (section 4.1,
unpoison(addr, n)).  All fully covered cells become Valid.  A trailing
partial cell is promoted to Valid only if addr+n is 8-aligned; otherwise
it is set to Partial_k reflecting the now-valid leading bytes
(k = (addr+n) mod 8).  A cell in which the region starts mid-cell has its
trailing bytes unpoisoned, which the Partial encoding cannot express, so
it is left unchanged. -/
def unpoisonRegion (sh : Nat → Nat) (addr n : Nat) : Nat → Nat :=
  if n = 0 then sh
  else fun c =>
    if addr ≤ 8 * c ∧ 8 * c + 8 ≤ addr + n then 0
    else if addr ≤ 8 * c ∧ c = (addr + n) / 8 ∧ (addr + n) % 8 ≠ 0 then (addr + n) % 8
    else sh c

/-- Modelled from the spec: accessibility of one guest byte (section 3
invariant: a byte is accessible iff its shadow tag is Valid, or its offset
within its aligned 8-byte cell is strictly less than the Partial index
stored for that cell). -/
def byteOk (sh : Nat → Nat) (a : Nat) : Bool :=
  let t := sh (a / 8)
  t == 0 || (decide (a % 8 < t) && decide (t ≤ 7))

/-- Modelled from the spec: check(addr, n) of section 4.1, returning ok
(none) or the offending byte offset within [addr, addr+n).  This is the
behaviour of asan_giovese_loadN / storeN and the fixed-size variants
(which are checkRegion at n = 1, 2, 4, 8): the extern functions return a
nonzero i32 exactly when the check fails. -/
def checkRegion (sh : Nat → Nat) (addr n : Nat) : Option Nat :=
  (List.range n).find? (fun i => !byteOk sh (addr + i))

/-- Containment test of an address in a chunk interval ([start, stop)). -/
def chunkContains (c : ChunkInfo) (a : Nat) : Bool :=
  decide (c.start ≤ a) && decide (a < c.stop)

/-- Modelled from the spec: distance from a query address to a chunk that
does not contain it, used for the nearest-quarantined-chunk fallback of
search (section 4.2). -/
def chunkDist (c : ChunkInfo) (a : Nat) : Nat :=
  if a < c.start then c.start - a else a + 1 - c.stop

/-- Modelled from the spec: the nearest freed-but-in-quarantine chunk
(section 4.2, the fallback branch of search).  Among chunks with a free
context, picks one minimising the distance to the query; the first such
chunk wins ties. -/
def nearestFreed (cs : List ChunkInfo) (a : Nat) : Option ChunkInfo :=
  (cs.filter (fun c => c.free_ctx.isSome)).foldl
    (fun best c =>
      match best with
      | none => some c
      | some b => if chunkDist c a < chunkDist b a then some c else some b)
    none

/-- Modelled from the spec: asan_giovese_alloc_search (section 4.2,
search(addr)): returns the chunk whose interval contains addr, or the
nearest freed-but-in-quarantine chunk if none contains it. -/
def searchChunk (cs : List ChunkInfo) (a : Nat) : Option ChunkInfo :=
  match cs.find? (fun c => chunkContains c a) with
  | some c => some c
  | none => nearestFreed cs a

/-- Replacement of the first occurrence of a chunk value in the registry,
modelling the in-place mutation of the record returned by
asan_giovese_alloc_search. -/
def replaceFirst (cs : List ChunkInfo) (old new : ChunkInfo) : List ChunkInfo :=
  match cs with
  | [] => []
  | c :: rest => if c = old then new :: rest else c :: replaceFirst rest old new

/-- Modelled from the spec: asan_giovese_alloc_remove (section 4.2,
remove(start..end)): removes all chunks whose intervals fall entirely
within the range; nothing else — in particular the shadow map is not
touched by this operation. -/
def allocRemove (cs : List ChunkInfo) (lo hi : Nat) : List ChunkInfo :=
  cs.filter (fun c => !(decide (lo ≤ c.start) && decide (c.stop ≤ hi)))

/-- Default redzone width of 8 bytes on each side (section 6
configuration options). -/
def REDZONE : Nat := 8

/-- Modelled from the spec: asan_giovese_alloc_insert (section 4.2,
insert(start, end, alloc_ctx)): poisons the leading and trailing redzones
around [start, stop) with HeapLeftRz / HeapRightRz, unpoisons the payload,
and records the chunk.  The leading redzone is truncated at address 0. -/
def allocInsert (st : AsanState) (start stop : Nat) (ctx : CallContext) : AsanState :=
  let lo := start - REDZONE
  let sh1 := poisonRegion st.shadow lo (start - lo) PoisonKind.HeapLeftRz.toByte
  let sh2 := poisonRegion sh1 stop REDZONE PoisonKind.HeapRightRz.toByte
  let sh3 := unpoisonRegion sh2 start (stop - start)
  { st with
    shadow := sh3
    chunks := st.chunks ++ [{ start := start, stop := stop, alloc_ctx := ctx, free_ctx := none }] }

/-- Run-fatal reports produced through the asan_giovese reporter.
Modelled from the spec: section 4.4 — the reporter formats the violation
and terminates the current guest run; it does not return to the caller. -/
inductive RunReport
  | accessViolation (accessType : Nat) (addr : Nat) (n : Nat) (pc bp sp : Nat)
  | badFree (addr : Nat) (pc : Nat)
deriving DecidableEq, Repr

/-- Observable events of one access entry point: a consultation of the
shadow map (the asan_giovese load/store check) and a fatal report. -/
inductive Event
  | checked (addr n : Nat)
  | crashed (r : RunReport)
deriving DecidableEq, Repr

/-- First fatal report in an event list, if any. -/
def firstCrash : List Event → Option RunReport
  | [] => none
  | .checked _ _ :: rest => firstCrash rest
  | .crashed r :: _ => some r

/-- QemuAsanHelper::set_enabled (asan.rs lines 202-204). -/
def set_enabled (st : AsanState) (b : Bool) : AsanState :=
  { st with helper := { st.helper with enabled := b } }

/-- QemuAsanHelper::must_instrument (asan.rs lines 192-195). -/
def must_instrument (h : QemuAsanHelper) (addr : Nat) : Bool :=
  h.filter.allowed addr

/-- QemuAsanHelper::alloc (asan.rs lines 206-213): callocs a zeroed call
context and calls asan_giovese_alloc_insert. -/
def alloc (st : AsanState) (start stop : Nat) : AsanState :=
  allocInsert st start stop freshCallContext

/-- QemuAsanHelper::dealloc (asan.rs lines 215-232).  The search result is
examined: when no chunk is found, or the found chunk does not start at
addr, asan_giovese_badfree reports the bad free.  Modelled from the spec:
the reporter terminates the current guest run (sections 4.4 and 7), so the
statements after the badfree call in the source never execute; the state
at report time is returned unchanged together with the report.  On the
good path a zeroed call context is attached to the found chunk (the
in-place pointer mutation is modelled as first-occurrence replacement). -/
def dealloc (st : AsanState) (regs : EmuRegs) (addr : Nat) : AsanState × Option RunReport :=
  match searchChunk st.chunks addr with
  | some ck =>
    if ck.start ≠ addr then
      (st, some (RunReport.badFree addr regs.pc))
    else
      ({ st with chunks := replaceFirst st.chunks ck { ck with free_ctx := some freshCallContext } },
       none)
  | none => (st, some (RunReport.badFree addr regs.pc))

/-- QemuAsanHelper::is_poisoned (asan.rs lines 234-237):
asan_giovese_loadN on the translated address, nonzero meaning poisoned.
The guest-to-host translation emu::g2h is modelled as the identity on
guest addresses (the shadow model is indexed by guest addresses). -/
def is_poisoned (st : AsanState) (addr n : Nat) : Bool :=
  (checkRegion st.shadow addr n).isSome

/-- QemuAsanHelper::read_1 (asan.rs lines 239-252): when enabled and the
1-byte load check fails, report an access violation of kind 0 (load) and
size 1.  The && in the source is short-circuit, so a disabled helper never
consults the shadow map. -/
def read_1 (st : AsanState) (regs : EmuRegs) (addr : Nat) : AsanState × List Event :=
  if st.helper.enabled then
    match checkRegion st.shadow addr 1 with
    | some _ => (st, [.checked addr 1, .crashed (.accessViolation 0 addr 1 regs.pc 0 regs.sp)])
    | none => (st, [.checked addr 1])
  else (st, [])

/-- QemuAsanHelper::read_2 (asan.rs lines 254-267). -/
def read_2 (st : AsanState) (regs : EmuRegs) (addr : Nat) : AsanState × List Event :=
  if st.helper.enabled then
    match checkRegion st.shadow addr 2 with
    | some _ => (st, [.checked addr 2, .crashed (.accessViolation 0 addr 2 regs.pc 0 regs.sp)])
    | none => (st, [.checked addr 2])
  else (st, [])

/-- QemuAsanHelper::read_4 (asan.rs lines 269-282). -/
def read_4 (st : AsanState) (regs : EmuRegs) (addr : Nat) : AsanState × List Event :=
  if st.helper.enabled then
    match checkRegion st.shadow addr 4 with
    | some _ => (st, [.checked addr 4, .crashed (.accessViolation 0 addr 4 regs.pc 0 regs.sp)])
    | none => (st, [.checked addr 4])
  else (st, [])

/-- QemuAsanHelper::read_8 (asan.rs lines 284-297). -/
def read_8 (st : AsanState) (regs : EmuRegs) (addr : Nat) : AsanState × List Event :=
  if st.helper.enabled then
    match checkRegion st.shadow addr 8 with
    | some _ => (st, [.checked addr 8, .crashed (.accessViolation 0 addr 8 regs.pc 0 regs.sp)])
    | none => (st, [.checked addr 8])
  else (st, [])

/-- QemuAsanHelper::read_n (asan.rs lines 299-312): size-N load check,
reporting kind 0 (load). -/
def read_n (st : AsanState) (regs : EmuRegs) (addr n : Nat) : AsanState × List Event :=
  if st.helper.enabled then
    match checkRegion st.shadow addr n with
    | some _ => (st, [.checked addr n, .crashed (.accessViolation 0 addr n regs.pc 0 regs.sp)])
    | none => (st, [.checked addr n])
  else (st, [])

/-- QemuAsanHelper::write_1 (asan.rs lines 314-327): reporting kind 1
(store). -/
def write_1 (st : AsanState) (regs : EmuRegs) (addr : Nat) : AsanState × List Event :=
  if st.helper.enabled then
    match checkRegion st.shadow addr 1 with
    | some _ => (st, [.checked addr 1, .crashed (.accessViolation 1 addr 1 regs.pc 0 regs.sp)])
    | none => (st, [.checked addr 1])
  else (st, [])

/-- QemuAsanHelper::write_2 (asan.rs lines 329-342). -/
def write_2 (st : AsanState) (regs : EmuRegs) (addr : Nat) : AsanState × List Event :=
  if st.helper.enabled then
    match checkRegion st.shadow addr 2 with
    | some _ => (st, [.checked addr 2, .crashed (.accessViolation 1 addr 2 regs.pc 0 regs.sp)])
    | none => (st, [.checked addr 2])
  else (st, [])

/-- QemuAsanHelper::write_4 (asan.rs lines 344-357). -/
def write_4 (st : AsanState) (regs : EmuRegs) (addr : Nat) : AsanState × List Event :=
  if st.helper.enabled then
    match checkRegion st.shadow addr 4 with
    | some _ => (st, [.checked addr 4, .crashed (.accessViolation 1 addr 4 regs.pc 0 regs.sp)])
    | none => (st, [.checked addr 4])
  else (st, [])

/-- QemuAsanHelper::write_8 (asan.rs lines 359-372). -/
def write_8 (st : AsanState) (regs : EmuRegs) (addr : Nat) : AsanState × List Event :=
  if st.helper.enabled then
    match checkRegion st.shadow addr 8 with
    | some _ => (st, [.checked addr 8, .crashed (.accessViolation 1 addr 8 regs.pc 0 regs.sp)])
    | none => (st, [.checked addr 8])
  else (st, [])

/-- QemuAsanHelper::write_n (asan.rs lines 374-387): size-N store check,
reporting kind 1 (store). -/
def write_n (st : AsanState) (regs : EmuRegs) (addr n : Nat) : AsanState × List Event :=
  if st.helper.enabled then
    match checkRegion st.shadow addr n with
    | some _ => (st, [.checked addr n, .crashed (.accessViolation 1 addr n regs.pc 0 regs.sp)])
    | none => (st, [.checked addr n])
  else (st, [])

/-- QemuAsanHelper::poison (asan.rs lines 389-392). -/
def poison (st : AsanState) (addr n : Nat) (k : PoisonKind) : AsanState :=
  { st with shadow := poisonRegion st.shadow addr n k.toByte }

/-- QemuAsanHelper::unpoison (asan.rs lines 394-397). -/
def unpoison (st : AsanState) (addr n : Nat) : AsanState :=
  { st with shadow := unpoisonRegion st.shadow addr n }

/-- QemuAsanHelper::reset (asan.rs lines 399-402):
asan_giovese_alloc_remove(0, u64::MAX) and nothing else. -/
def reset (st : AsanState) : AsanState :=
  { st with chunks := allocRemove st.chunks 0 (2 ^ 64 - 1) }

/-- QemuHelper::post_exec for QemuAsanHelper (asan.rs lines 439-441):
calls reset after every execution. -/
def post_exec (st : AsanState) : AsanState :=
  reset st

/-- trace_read_n_asan (asan.rs lines 499-511): the execution hook
registered for N-byte guest reads; dispatches to read_n. -/
def trace_read_n_asan (st : AsanState) (regs : EmuRegs) (_id addr n : Nat) :
    AsanState × List Event :=
  read_n st regs addr n

/-- trace_write_n_asan (asan.rs lines 549-561): the execution hook
registered for N-byte guest writes by QemuHelper::init at asan.rs line 434
(executor.hook_write_n_execution(trace_write_n_asan)).  Its body calls
h.read_n(addr, size) — the read path — exactly as in the source. -/
def trace_write_n_asan (st : AsanState) (regs : EmuRegs) (_id addr n : Nat) :
    AsanState × List Event :=
  read_n st regs addr n

/-- Result of the syscall hook.  unhandled models
SyscallHookResult::new(None); handled carries the post-state and the value
returned to the guest (SyscallHookResult::new(Some(r))); crashed models a
run terminated through the asan_giovese reporter inside the hook;
panicked models a host-process panic (expect / unwrap failure). -/
inductive SyscallOutcome
  | unhandled
  | handled (st : AsanState) (v : Nat)
  | crashed (st : AsanState) (r : RunReport)
  | panicked (msg : String)

/-- Body of the match on the decoded action inside qasan_fake_syscall
(asan.rs lines 583-619), one arm per QasanAction.  Actions that route
through the reporter (CheckLoad, CheckStore via read_n / write_n, and
Dealloc via badfree) yield crashed when a report fires, since the
reporter terminates the run.  PoisonKind::try_from(a3 as u8).unwrap() is
modelled as a panicked outcome when decoding fails. -/
def runAction (st : AsanState) (regs : EmuRegs) (act : QasanAction)
    (a1 a2 a3 : Nat) : SyscallOutcome :=
  match act with
  | .CheckLoad =>
    let p := read_n st regs a1 a2
    match firstCrash p.2 with
    | some r => .crashed p.1 r
    | none => .handled p.1 0
  | .CheckStore =>
    let p := write_n st regs a1 a2
    match firstCrash p.2 with
    | some r => .crashed p.1 r
    | none => .handled p.1 0
  | .Poison =>
    match PoisonKind.tryFrom (a3 % 256) with
    | none => .panicked "called Result::unwrap() on an Err value"
    | some k => .handled (poison st a1 a2 k) 0
  | .UserPoison => .handled (poison st a1 a2 .User) 0
  | .UnPoison => .handled (unpoison st a1 a2) 0
  | .IsPoison => .handled st (if is_poisoned st a1 a2 then 1 else 0)
  | .Alloc => .handled (alloc st a1 a2) 0
  | .Dealloc =>
    let p := dealloc st regs a1
    match p.2 with
    | some r => .crashed p.1 r
    | none => .handled p.1 0
  | .Enable => .handled (set_enabled st true) 0
  | .Disable => .handled (set_enabled st false) 0
  | .SwapState => .handled (set_enabled st (!st.helper.enabled)) 0

/-- qasan_fake_syscall (asan.rs lines 563-624).  Arguments a4..a7 are
unused by the source and omitted.  QasanAction::try_from(a0)
.expect("Invalid QASan action number") is modelled as a panicked outcome
when decoding fails; a defined action runs through runAction. -/
def qasan_fake_syscall (st : AsanState) (regs : EmuRegs) (sys_num : Int)
    (a0 a1 a2 a3 : Nat) : SyscallOutcome :=
  if sys_num = QASAN_FAKESYS_NR then
    match QasanAction.tryFrom a0 with
    | none => .panicked "Invalid QASan action number"
    | some act => runAction st regs act a1 a2 a3
  else .unhandled

/-- Enumeration of the ten access entry points read_k / write_k of the
checker (section 4.3). -/
inductive AccessOp
  | r1
  | r2
  | r4
  | r8
  | rn (n : Nat)
  | w1
  | w2
  | w4
  | w8
  | wn (n : Nat)
deriving DecidableEq, Repr

/-- Size checked by each access entry point. -/
def AccessOp.size : AccessOp → Nat
  | .r1 => 1
  | .r2 => 2
  | .r4 => 4
  | .r8 => 8
  | .rn n => n
  | .w1 => 1
  | .w2 => 2
  | .w4 => 4
  | .w8 => 8
  | .wn n => n

/-- Dispatch of an access operation to the matching helper entry point. -/
def runAccess (op : AccessOp) (st : AsanState) (regs : EmuRegs) (addr : Nat) :
    AsanState × List Event :=
  match op with
  | .r1 => read_1 st regs addr
  | .r2 => read_2 st regs addr
  | .r4 => read_4 st regs addr
  | .r8 => read_8 st regs addr
  | .rn n => read_n st regs addr n
  | .w1 => write_1 st regs addr
  | .w2 => write_2 st regs addr
  | .w4 => write_4 st regs addr
  | .w8 => write_8 st regs addr
  | .wn n => write_n st regs addr n

/-- The three ways a QemuAsanHelper is constructed in asan.rs:
QemuAsanHelper::new (lines 175-182), Default::default (lines 405-409,
which calls new), and QemuAsanHelper::with_instrumentation_filter
(lines 184-190). -/
inductive HelperConstructor
  | new
  | mkDefault
  | withInstrumentationFilter (f : QemuInstrumentationFilter)
deriving DecidableEq, Repr

/-- Construction of a QemuAsanHelper given the value of the process-wide
ASAN_INITED flag (asan.rs line 115).  new asserts that the flag is set and
panics otherwise (modelled as none); Default::default calls new;
with_instrumentation_filter performs no check at all and always yields a
helper with enabled = true and the given filter. -/
def constructHelper (asanInited : Bool) : HelperConstructor → Option QemuAsanHelper
  | .new => if asanInited then some { enabled := true, filter := .None } else none
  | .mkDefault => if asanInited then some { enabled := true, filter := .None } else none
  | .withInstrumentationFilter f => some { enabled := true, filter := f }

/-- Prefix test on strings, modelling Rust str::starts_with; executable
by structural recursion over the character lists (String.startsWith of
the library is extensionally the same but is defined by well-founded
recursion on byte positions). -/
def strStartsWith (s p : String) : Bool :=
  p.data.isPrefixOf s.data

/-- add_asan closure from init_with_asan (asan.rs lines 129-130):
prepends the sanitizer library to an LD_PRELOAD=... string, separating the
old value with a space. -/
def addAsan (lib e : String) : String :=
  "LD_PRELOAD=" ++ lib ++ " " ++ e.drop ("LD_PRELOAD=".length)

/-- Rewriting of one QEMU_SET_ENV value (asan.rs lines 135-144): split on
commas, prepend the library to every piece that starts with LD_PRELOAD=,
and join with commas again. -/
def envMapVal (lib v : String) : String :=
  String.intercalate ","
    ((v.splitOn ",").map (fun e => if strStartsWith e "LD_PRELOAD=" then addAsan lib e else e))

/-- Whether a QEMU_SET_ENV value contains an LD_PRELOAD= piece (the
condition under which the loop of asan.rs lines 135-144 sets added). -/
def envHitVal (v : String) : Bool :=
  (v.splitOn ",").any (fun e => strStartsWith e "LD_PRELOAD=")

/-- Environment loop of init_with_asan (asan.rs lines 133-146): every
entry with key QEMU_SET_ENV has its value rewritten; all other entries —
including a plain LD_PRELOAD entry — are untouched.  The Bool is the
contribution to the added flag. -/
def processEnv (lib : String) : List (String × String) → List (String × String) × Bool
  | [] => ([], false)
  | (k, v) :: rest =>
    let p := processEnv lib rest
    if k == "QEMU_SET_ENV" then ((k, envMapVal lib v) :: p.1, envHitVal v || p.2)
    else ((k, v) :: p.1, p.2)

/-- Inner traversal of the argument loop of init_with_asan (asan.rs lines
147-154).  The Rust loop walks index i and rewrites args[i+1] when
args[i] == "-E" and args[i+1] starts with LD_PRELOAD=; the predecessor
passed along here is the current (possibly rewritten) element, exactly as
the loop reads the mutated vector. -/
def argsGo (lib prev : String) : List String → List String × Bool
  | [] => ([], false)
  | b :: rest =>
    if (prev == "-E") && strStartsWith b "LD_PRELOAD=" then
      let b2 := addAsan lib b
      let p := argsGo lib b2 rest
      (b2 :: p.1, true)
    else
      let p := argsGo lib b rest
      (b :: p.1, p.2)

/-- Argument loop of init_with_asan (asan.rs lines 147-154); the first
element has no predecessor and is never rewritten. -/
def processArgs (lib : String) : List String → List String × Bool
  | [] => ([], false)
  | a :: rest =>
    let p := argsGo lib a rest
    (a :: p.1, p.2)

/-- init_with_asan (asan.rs lines 117-166), restricted to its pure
argument/environment massaging.  The library path (derived from the
running binary's directory in the source) is a parameter.  The leading
assert!(!args.is_empty()) is modelled as a none result.  After both
loops, if no LD_PRELOAD was rewritten anywhere, "-E" and
"LD_PRELOAD=lib" are inserted at index 1 (the two insert(1, ...) calls at
asan.rs lines 157-158). -/
def init_with_asan (lib : String) (args : List String)
    (env : List (String × String)) : Option (List String × List (String × String)) :=
  match args with
  | [] => none
  | a :: rest =>
    let pe := processEnv lib env
    let pa := processArgs lib (a :: rest)
    if pe.2 || pa.2 then some (pa.1, pe.1)
    else
      match pa.1 with
      | [] => none
      | a2 :: rest2 => some (a2 :: "-E" :: ("LD_PRELOAD=" ++ lib) :: rest2, pe.1)

/-- Registry well-formedness from section 3: live chunks have
pairwise-disjoint intervals, and a freed chunk's interval is not reused by
(does not overlap) a live chunk. -/
abbrev chunksWf (cs : List ChunkInfo) : Prop :=
  cs.Pairwise (fun a b =>
    (a.free_ctx = none ∨ b.free_ctx = none) → (a.stop ≤ b.start ∨ b.stop ≤ a.start))

/-- Baseline state: helper enabled with no filter, all-valid shadow map,
empty registry. -/
def initialState : AsanState :=
  { helper := { enabled := true, filter := .None }
    shadow := fun _ => 0
    chunks := [] }

/-- Sample register values used by concrete scenarios. -/
def regs0 : EmuRegs := { pc := 0x1111, sp := 0x2222 }

/-- State with [0x4000, 0x4010) poisoned with the User tag, as scenario S4
of section 8 sets up. -/
def stPoisoned : AsanState := poison initialState 0x4000 16 .User

/-- stPoisoned with the helper disabled. -/
def stDisabled : AsanState := set_enabled stPoisoned false

/-- State with a single live chunk [0x1000, 0x1010), for bad-free
scenarios. -/
def stChunk : AsanState :=
  { initialState with
    chunks := [{ start := 0x1000, stop := 0x1010, alloc_ctx := freshCallContext,
                 free_ctx := none }] }


/-- Disjointness relation used by chunksWf is symmetric. -/
theorem chunksWfRel_symm :
    Symmetric (fun a b : ChunkInfo =>
      (a.free_ctx = none ∨ b.free_ctx = none) → (a.stop ≤ b.start ∨ b.stop ≤ a.start)) := by
  intro a b hab hor
  rcases hab hor.symm with h | h
  · exact Or.inr h
  · exact Or.inl h

/-- If find? locates a chunk, the registry splits around its first
occurrence and replaceFirst rewrites exactly that occurrence. -/
theorem find?_replaceFirst_split (cs : List ChunkInfo) (p : ChunkInfo → Bool)
    (ck nw : ChunkInfo) (h : cs.find? p = some ck) :
    ∃ pre post, cs = pre ++ ck :: post ∧ replaceFirst cs ck nw = pre ++ nw :: post := by
  induction cs with
  | nil => simp at h
  | cons c rest ih =>
    by_cases hpc : p c = true
    · rw [List.find?_cons_of_pos _ hpc] at h
      injection h with h
      subst h
      exact ⟨[], rest, by simp, by simp [replaceFirst]⟩
    · rw [List.find?_cons_of_neg _ (by simp [hpc])] at h
      obtain ⟨pre, post, h1, h2⟩ := ih h
      have hcne : c ≠ ck := by
        intro he
        exact hpc (he ▸ List.find?_some h)
      exact ⟨c :: pre, post, by simp [h1], by simp [replaceFirst, hcne, h2]⟩

/-- Claim C2: in a well-formed registry, deallocating one past the start
of a live chunk that contains that address reports a bad free and leaves
the whole state (registry included) unchanged; no free context is
attached. -/
theorem dealloc_mid_chunk_reports_badfree
    (st : AsanState) (regs : EmuRegs) (ck : ChunkInfo) (P : Nat)
    (hwf : chunksWf st.chunks)
    (hmem : ck ∈ st.chunks) (hlive : ck.free_ctx = none)
    (hstart : ck.start = P) (hin : P + 1 < ck.stop) :
    dealloc st regs (P + 1) = (st, some (RunReport.badFree (P + 1) regs.pc)) := by
  have hck : chunkContains ck (P + 1) = true := by
    simp [chunkContains, hstart]
    omega
  have hsome : (st.chunks.find? (fun c => chunkContains c (P + 1))).isSome := by
    rw [List.find?_isSome]
    exact ⟨ck, hmem, hck⟩
  obtain ⟨c, hc⟩ := Option.isSome_iff_exists.mp hsome
  have hcp := List.find?_some hc
  simp only [] at hcp
  have hcmem : c ∈ st.chunks := List.mem_of_find?_eq_some hc
  have hcs : c.start = P := by
    by_cases hceq : c = ck
    · rw [hceq, hstart]
    · exfalso
      have hr := List.Pairwise.forall chunksWfRel_symm hwf hcmem hmem hceq
      have hd := hr (Or.inr hlive)
      simp [chunkContains] at hcp hck
      omega
  have hne : P ≠ P + 1 := by omega
  have hsearch : searchChunk st.chunks (P + 1) = some c := by
    simp [searchChunk, hc]
  simp [dealloc, hsearch, hcs, hne]

/-- Concrete instance of claim C2: a registry holding the live chunk
[0x1000, 0x1010); dealloc(0x1001) reports a bad free and the state is
unchanged. -/
theorem dealloc_mid_chunk_reports_badfree_witness :
    dealloc stChunk regs0 (0x1000 + 1) =
      (stChunk, some (RunReport.badFree (0x1000 + 1) regs0.pc)) := by
  exact dealloc_mid_chunk_reports_badfree stChunk regs0
    { start := 0x1000, stop := 0x1010, alloc_ctx := freshCallContext, free_ctx := none }
    0x1000 (by decide) (by decide) rfl rfl (by decide)

/-- Claim C1 (code bug): the execution hook registered for N-byte guest
writes (trace_write_n_asan, registered by hook_write_n_execution at
asan.rs line 434) dispatches to read_n, so a failing 4-byte write at the
poisoned address 0x4000 is reported with access kind 0 (load); the write
entry point write_n would have reported kind 1 (store). -/
theorem trace_write_n_reports_load_kind :
    (trace_write_n_asan stPoisoned regs0 0 0x4000 4).2 =
      [Event.checked 0x4000 4,
       Event.crashed (RunReport.accessViolation 0 0x4000 4 0x1111 0 0x2222)] ∧
    (write_n stPoisoned regs0 0x4000 4).2 =
      [Event.checked 0x4000 4,
       Event.crashed (RunReport.accessViolation 1 0x4000 4 0x1111 0 0x2222)] := by
  exact ⟨by decide, by decide⟩

/-- Claim C3, counterexample: after Alloc(0x2000, 0x2008) and
Dealloc(0x2000), the 4-byte check at 0x2004 still passes — dealloc does
not poison the payload with HeapFreed, so a subsequent access inside the
interval does not fail the shadow check — even though the free context
was recorded on the chunk. -/
theorem dealloc_does_not_poison_payload :
    checkRegion ((dealloc (alloc initialState 0x2000 0x2008) regs0 0x2000).1).shadow 0x2004 4
      = none ∧
    (dealloc (alloc initialState 0x2000 0x2008) regs0 0x2000).1.chunks =
      [{ start := 0x2000, stop := 0x2008, alloc_ctx := freshCallContext,
         free_ctx := some freshCallContext }] := by
  exact ⟨by decide, by decide⟩

/-- Claim C3 as amended: deallocating a live chunk at its start address
records a zeroed free context on exactly that chunk and leaves the shadow
map unchanged — every shadow check yields the same verdict after the
dealloc as before it (dealloc itself poisons nothing). -/
theorem dealloc_at_start_records_free_ctx
    (st : AsanState) (regs : EmuRegs) (addr : Nat) (ck : ChunkInfo)
    (hfind : st.chunks.find? (fun c => chunkContains c addr) = some ck)
    (hstart : ck.start = addr) (_hlive : ck.free_ctx = none) :
    ∃ pre post,
      st.chunks = pre ++ ck :: post ∧
      (dealloc st regs addr).2 = none ∧
      (dealloc st regs addr).1.chunks =
        pre ++ { ck with free_ctx := some freshCallContext } :: post ∧
      ∀ a n, checkRegion (dealloc st regs addr).1.shadow a n = checkRegion st.shadow a n := by
  obtain ⟨pre, post, h1, h2⟩ :=
    find?_replaceFirst_split st.chunks (fun c => chunkContains c addr) ck
      { ck with free_ctx := some freshCallContext } hfind
  have hsearch : searchChunk st.chunks addr = some ck := by
    simp [searchChunk, hfind]
  have hdea : dealloc st regs addr =
      ({ st with chunks := replaceFirst st.chunks ck { ck with free_ctx := some freshCallContext } }, none) := by
    simp [dealloc, hsearch, hstart]
  refine ⟨pre, post, h1, ?_, ?_, ?_⟩
  · rw [hdea]
  · rw [hdea, h2]
  · intro a n
    rw [hdea]

/-- Concrete instance of claim C3 as amended, at the chunk
[0x2000, 0x2008) of the counterexample scenario. -/
theorem dealloc_at_start_records_free_ctx_witness :
    ∃ pre post,
      (alloc initialState 0x2000 0x2008).chunks =
        pre ++ { start := 0x2000, stop := 0x2008, alloc_ctx := freshCallContext,
                 free_ctx := none } :: post ∧
      (dealloc (alloc initialState 0x2000 0x2008) regs0 0x2000).2 = none ∧
      (dealloc (alloc initialState 0x2000 0x2008) regs0 0x2000).1.chunks =
        pre ++ { start := 0x2000, stop := 0x2008, alloc_ctx := freshCallContext,
                 free_ctx := some freshCallContext } :: post ∧
      ∀ a n, checkRegion ((dealloc (alloc initialState 0x2000 0x2008) regs0 0x2000).1).shadow a n
        = checkRegion (alloc initialState 0x2000 0x2008).shadow a n := by
  exact dealloc_at_start_records_free_ctx (alloc initialState 0x2000 0x2008) regs0 0x2000
    { start := 0x2000, stop := 0x2008, alloc_ctx := freshCallContext, free_ctx := none }
    (by decide) rfl rfl

/-- Claim C4, counterexample: the fake syscall with the undefined action
selector a0 = 0x99 makes the dispatcher panic on the expect of
QasanAction::try_from — a host-process abort — instead of aborting the
guest run through the reporter with a bad-sanitizer-request kind (no such
report kind exists in the code). -/
theorem unknown_action_panics_concrete :
    qasan_fake_syscall initialState regs0 QASAN_FAKESYS_NR 0x99 0 0 0 =
      SyscallOutcome.panicked "Invalid QASan action number" := by
  rfl

/-- Claim C4 as amended: for every state and every action selector that
decodes to no defined action, the dispatcher panics (host-process abort
via expect) with the message of the source; it neither succeeds nor
reports through the asan_giovese reporter. -/
theorem unknown_action_panics
    (st : AsanState) (regs : EmuRegs) (a0 a1 a2 a3 : Nat)
    (h : QasanAction.tryFrom a0 = none) :
    qasan_fake_syscall st regs QASAN_FAKESYS_NR a0 a1 a2 a3 =
      SyscallOutcome.panicked "Invalid QASan action number" := by
  simp [qasan_fake_syscall, h]

/-- Concrete discharge of the amended claim C4 at a0 = 0x4242. -/
theorem unknown_action_panics_witness :
    qasan_fake_syscall stPoisoned regs0 QASAN_FAKESYS_NR 0x4242 1 2 3 =
      SyscallOutcome.panicked "Invalid QASan action number" := by
  exact unknown_action_panics stPoisoned regs0 0x4242 1 2 3 (by decide)

/-- Claim C7, counterexample: with [0x4000, 0x4010) poisoned, reset()
leaves the 1-byte check at 0x4000 failing — the shadow map is not
restored to the all-valid baseline by reset — although the registry is
indeed emptied. -/
theorem reset_leaves_shadow_poisoned :
    (checkRegion (reset stPoisoned).shadow 0x4000 1).isSome = true ∧
    (reset stPoisoned).chunks = [] := by
  exact ⟨by decide, by decide⟩

/-- Claim C7 as amended: reset() (called by post_exec after every
execution) empties the allocation registry — every chunk interval of u64
addresses falls entirely within the removal range 0..u64::MAX — but does
not touch the shadow map: every range checks exactly as it did before the
reset, so previously poisoned ranges stay poisoned. -/
theorem reset_clears_registry_shadow_untouched (st : AsanState)
    (h : ∀ c ∈ st.chunks, c.stop ≤ 2 ^ 64 - 1) :
    (reset st).chunks = [] ∧ (reset st).shadow = st.shadow := by
  constructor
  · simp only [reset, allocRemove, List.filter_eq_nil_iff]
    intro c hc
    simpa using h c hc
  · rfl

/-- Concrete discharge of the amended claim C7 on a registry holding one
chunk. -/
theorem reset_clears_registry_shadow_untouched_witness :
    (reset stChunk).chunks = [] ∧ (reset stChunk).shadow = stChunk.shadow := by
  exact reset_clears_registry_shadow_untouched stChunk (by decide)

/-- Claim C8, counterexample: with the ASAN_INITED flag unset,
QemuAsanHelper::with_instrumentation_filter still constructs a helper —
so not every way of constructing a QemuAsanHelper fails when the
sanitizer runtime is uninitialized. -/
theorem with_filter_constructs_uninitialized :
    constructHelper false (HelperConstructor.withInstrumentationFilter .None) =
      some { enabled := true, filter := .None } := by
  rfl

/-- Claim C8 as amended: with the sanitizer runtime uninitialized,
QemuAsanHelper::new and Default::default refuse to construct (the assert
panics), but with_instrumentation_filter performs no initialization check
and constructs a helper for every filter. -/
theorem constructor_initialization_checks :
    constructHelper false HelperConstructor.new = none ∧
    constructHelper false HelperConstructor.mkDefault = none ∧
    ∀ f, (constructHelper false (HelperConstructor.withInstrumentationFilter f)).isSome = true := by
  exact ⟨rfl, rfl, fun f => rfl⟩

/-- Claim C10: a Poison fake syscall whose a3 low byte is not a defined
poison tag makes the dispatcher panic on the unwrap of
PoisonKind::try_from (host-process abort), rather than returning a result
or reporting through the reporter. -/
theorem poison_bad_tag_panics
    (st : AsanState) (regs : EmuRegs) (a1 a2 a3 : Nat)
    (h : PoisonKind.tryFrom (a3 % 256) = none) :
    qasan_fake_syscall st regs QASAN_FAKESYS_NR 2 a1 a2 a3 =
      SyscallOutcome.panicked "called Result::unwrap() on an Err value" := by
  simp [qasan_fake_syscall, QasanAction.tryFrom, runAction, h]

/-- Concrete discharge of claim C10 at a3 = 8 (byte 8 is not a defined
poison tag: the defined bytes are 0..7, 0xac, 0xe9, 0xf0..0xf3, 0xf5,
0xf7..0xfb, 0xfd). -/
theorem poison_bad_tag_panics_witness :
    qasan_fake_syscall initialState regs0 QASAN_FAKESYS_NR 2 0x4000 4 8 =
      SyscallOutcome.panicked "called Result::unwrap() on an Err value" := by
  exact poison_bad_tag_panics initialState regs0 0x4000 4 8 (by decide)

/-- Claim C5: for every syscall invocation, a syscall number other than
the reserved one is left unhandled; the reserved number is never left
unhandled; and whenever the dispatcher returns handled, the value handed
to the guest is 1 exactly when the action was IsPoison on a range
containing a poisoned byte, and 0 in every other case (including IsPoison
on a fully valid range). -/
theorem qasan_dispatch_result
    (st : AsanState) (regs : EmuRegs) (sys : Int) (a0 a1 a2 a3 : Nat) :
    (sys ≠ QASAN_FAKESYS_NR →
      qasan_fake_syscall st regs sys a0 a1 a2 a3 = SyscallOutcome.unhandled) ∧
    (sys = QASAN_FAKESYS_NR →
      qasan_fake_syscall st regs sys a0 a1 a2 a3 ≠ SyscallOutcome.unhandled) ∧
    (∀ st2 v, qasan_fake_syscall st regs sys a0 a1 a2 a3 = SyscallOutcome.handled st2 v →
      v = if QasanAction.tryFrom a0 = some QasanAction.IsPoison ∧ is_poisoned st a1 a2
          then 1 else 0) := by
  by_cases hsys : sys = QASAN_FAKESYS_NR
  · subst hsys
    refine ⟨fun hne => absurd rfl hne, ?_, ?_⟩
    · intro _
      rw [qasan_fake_syscall, if_pos rfl]
      cases hact : QasanAction.tryFrom a0 with
      | none => simp
      | some act =>
        cases act <;> simp only [runAction] <;> first | (split <;> simp) | simp
    · intro st2 v
      rw [qasan_fake_syscall, if_pos rfl]
      cases hact : QasanAction.tryFrom a0 with
      | none => intro h; cases h
      | some act =>
        cases act with
        | CheckLoad =>
          simp only [runAction]
          split <;> intro h <;> cases h
          simp
        | CheckStore =>
          simp only [runAction]
          split <;> intro h <;> cases h
          simp
        | Poison =>
          simp only [runAction]
          split <;> intro h <;> cases h
          simp
        | UserPoison => intro h; cases h; simp
        | UnPoison => intro h; cases h; simp
        | IsPoison =>
          intro h
          cases h
          by_cases hp : is_poisoned st a1 a2 <;> simp [hp]
        | Alloc => intro h; cases h; simp
        | Dealloc =>
          simp only [runAction]
          split <;> intro h <;> cases h
          simp
        | Enable => intro h; cases h; simp
        | Disable => intro h; cases h; simp
        | SwapState => intro h; cases h; simp
  · refine ⟨fun _ => by simp [qasan_fake_syscall, hsys], fun he => absurd he hsys, ?_⟩
    intro st2 v h
    rw [qasan_fake_syscall, if_neg hsys] at h
    cases h

/-- Concrete discharge of claim C5: a non-reserved syscall number is left
unhandled, and an IsPoison request on the poisoned range [0x4000, 0x4010)
is handled with value 1. -/
theorem qasan_dispatch_result_witness :
    qasan_fake_syscall stPoisoned regs0 7 5 0x4000 4 0 = SyscallOutcome.unhandled ∧
    (1 : Nat) = if QasanAction.tryFrom 5 = some QasanAction.IsPoison ∧
        is_poisoned stPoisoned 0x4000 4 then 1 else 0 := by
  refine ⟨(qasan_dispatch_result stPoisoned regs0 7 5 0x4000 4 0).1 (by decide), ?_⟩
  exact (qasan_dispatch_result stPoisoned regs0 QASAN_FAKESYS_NR 5 0x4000 4 0).2.2
    stPoisoned 1 (by rfl)

/-- Claim C6: every access entry point read_k / write_k (k in
1, 2, 4, 8, N), when the helper is disabled, returns the state unchanged
and performs no observable action — neither a shadow-map consultation nor
a report; and after set_enabled(true), the same access at an address
whose range fails the shadow check produces an access-violation report
again. -/
theorem access_disabled_suppresses_reenable_detects
    (op : AccessOp) (st : AsanState) (regs : EmuRegs) (addr : Nat) :
    (st.helper.enabled = false → runAccess op st regs addr = (st, [])) ∧
    ((checkRegion st.shadow addr op.size).isSome = true →
      ∃ k, Event.crashed (RunReport.accessViolation k addr op.size regs.pc 0 regs.sp) ∈
        (runAccess op (set_enabled st true) regs addr).2) := by
  constructor
  · intro h
    cases op <;>
      simp [runAccess, read_1, read_2, read_4, read_8, read_n,
        write_1, write_2, write_4, write_8, write_n, h]
  · intro h
    obtain ⟨j, hj⟩ := Option.isSome_iff_exists.mp h
    cases op with
    | r1 =>
      simp only [AccessOp.size] at hj ⊢
      exact ⟨0, by simp [runAccess, read_1, set_enabled, hj]⟩
    | r2 =>
      simp only [AccessOp.size] at hj ⊢
      exact ⟨0, by simp [runAccess, read_2, set_enabled, hj]⟩
    | r4 =>
      simp only [AccessOp.size] at hj ⊢
      exact ⟨0, by simp [runAccess, read_4, set_enabled, hj]⟩
    | r8 =>
      simp only [AccessOp.size] at hj ⊢
      exact ⟨0, by simp [runAccess, read_8, set_enabled, hj]⟩
    | rn n =>
      simp only [AccessOp.size] at hj ⊢
      exact ⟨0, by simp [runAccess, read_n, set_enabled, hj]⟩
    | w1 =>
      simp only [AccessOp.size] at hj ⊢
      exact ⟨1, by simp [runAccess, write_1, set_enabled, hj]⟩
    | w2 =>
      simp only [AccessOp.size] at hj ⊢
      exact ⟨1, by simp [runAccess, write_2, set_enabled, hj]⟩
    | w4 =>
      simp only [AccessOp.size] at hj ⊢
      exact ⟨1, by simp [runAccess, write_4, set_enabled, hj]⟩
    | w8 =>
      simp only [AccessOp.size] at hj ⊢
      exact ⟨1, by simp [runAccess, write_8, set_enabled, hj]⟩
    | wn n =>
      simp only [AccessOp.size] at hj ⊢
      exact ⟨1, by simp [runAccess, write_n, set_enabled, hj]⟩

/-- Concrete discharge of claim C6 for the 1-byte read entry point at the
poisoned address 0x4000: disabled, the access does nothing; re-enabled,
it reports. -/
theorem access_disabled_suppresses_reenable_detects_witness :
    runAccess AccessOp.r1 stDisabled regs0 0x4000 = (stDisabled, []) ∧
    ∃ k, Event.crashed (RunReport.accessViolation k 0x4000 AccessOp.r1.size regs0.pc 0 regs0.sp) ∈
      (runAccess AccessOp.r1 (set_enabled stDisabled true) regs0 0x4000).2 := by
  exact ⟨(access_disabled_suppresses_reenable_detects AccessOp.r1 stDisabled regs0 0x4000).1 rfl,
    (access_disabled_suppresses_reenable_detects AccessOp.r1 stDisabled regs0 0x4000).2 (by decide)⟩

/-- The literal "-E" does not start with "LD_PRELOAD=". -/
theorem strStartsWith_minusE : strStartsWith "-E" "LD_PRELOAD=" = false := by decide

/-- The head entry produced by the environment loop. -/
theorem processEnv_cons_fst (lib k v : String) (rest : List (String × String)) :
    (processEnv lib ((k, v) :: rest)).1 =
      (if k == "QEMU_SET_ENV" then (k, envMapVal lib v) else (k, v)) ::
        (processEnv lib rest).1 := by
  by_cases hkk : (k == "QEMU_SET_ENV") = true <;> simp [processEnv, hkk]

/-- Entries of the environment whose key is not QEMU_SET_ENV pass through
init_with_asan untouched. -/
theorem processEnv_mem_other (lib : String) (env : List (String × String))
    (kv : String × String) (hmem : kv ∈ env) (hk : kv.1 ≠ "QEMU_SET_ENV") :
    kv ∈ (processEnv lib env).1 := by
  induction env with
  | nil => cases hmem
  | cons e rest ih =>
    obtain ⟨k, v⟩ := e
    rw [processEnv_cons_fst]
    rcases List.mem_cons.mp hmem with hmem | hmem
    · subst hmem
      have hkk : (k == "QEMU_SET_ENV") = false := by
        simpa using hk
      simp [hkk]
    · exact List.mem_cons_of_mem _ (ih hmem)

/-- Every QEMU_SET_ENV entry of the environment appears in the output of
init_with_asan with its value rewritten by envMapVal. -/
theorem processEnv_mem_qemu (lib : String) (env : List (String × String))
    (kv : String × String) (hmem : kv ∈ env) (hk : kv.1 = "QEMU_SET_ENV") :
    (kv.1, envMapVal lib kv.2) ∈ (processEnv lib env).1 := by
  induction env with
  | nil => cases hmem
  | cons e rest ih =>
    obtain ⟨k, v⟩ := e
    rw [processEnv_cons_fst]
    rcases List.mem_cons.mp hmem with hmem | hmem
    · subst hmem
      simp only at hk
      simp [hk]
    · exact List.mem_cons_of_mem _ (ih hmem)

/-- If no QEMU_SET_ENV entry carries an LD_PRELOAD piece, the environment
loop does not set the added flag. -/
theorem processEnv_snd_false (lib : String) (env : List (String × String))
    (h : ∀ kv ∈ env, kv.1 = "QEMU_SET_ENV" → envHitVal kv.2 = false) :
    (processEnv lib env).2 = false := by
  induction env with
  | nil => rfl
  | cons e rest ih =>
    obtain ⟨k, v⟩ := e
    have hrest : (processEnv lib rest).2 = false :=
      ih (fun kv hkv => h kv (List.mem_cons_of_mem _ hkv))
    by_cases hkk : (k == "QEMU_SET_ENV") = true
    · have hv : envHitVal v = false := h (k, v) (List.mem_cons_self _ _) (by simpa using hkk)
      simp [processEnv, hkk, hv, hrest]
    · simp [processEnv, hkk, hrest]

/-- When the argument loop performs no rewrite, the argument vector is
returned unchanged. -/
theorem argsGo_snd_false_id (lib : String) (rest : List String) :
    ∀ (prev : String), (argsGo lib prev rest).2 = false →
      (argsGo lib prev rest).1 = rest := by
  induction rest with
  | nil => intro prev _; rfl
  | cons c r ih =>
    intro prev h
    by_cases hc : ((prev == "-E") && strStartsWith c "LD_PRELOAD=") = true
    · simp [argsGo, hc] at h
    · simp only [argsGo, hc] at h ⊢
      simp at h ⊢
      exact ih c h

/-- An adjacent pair ("-E", LD_PRELOAD=...) anywhere in the argument
vector makes the argument loop set the added flag. -/
theorem argsGo_snd_true_of_pattern (lib : String) (rest : List String) :
    ∀ (prev : String) (i : Nat) (b : String),
      (prev :: rest).get? i = some "-E" → (prev :: rest).get? (i + 1) = some b →
      strStartsWith b "LD_PRELOAD=" = true → (argsGo lib prev rest).2 = true := by
  induction rest with
  | nil =>
    intro prev i b h1 h2 h3
    rcases i with _ | i <;> cases h2
  | cons c r ih =>
    intro prev i b h1 h2 h3
    rcases i with _ | i
    · simp only [List.get?] at h1 h2
      injection h1 with h1
      injection h2 with h2
      subst h1
      subst h2
      simp [argsGo, h3]
    · by_cases hc : ((prev == "-E") && strStartsWith c "LD_PRELOAD=") = true
      · simp [argsGo, hc]
      · have := ih c i b h1 h2 h3
        simp [argsGo, hc, this]

/-- If the argument loop set the added flag, some adjacent pair
("-E", LD_PRELOAD=...) existed in the arguments. -/
theorem argsGo_pattern_of_snd_true (lib : String) (rest : List String) :
    ∀ (prev : String), (argsGo lib prev rest).2 = true →
      ∃ i b, (prev :: rest).get? i = some "-E" ∧ (prev :: rest).get? (i + 1) = some b ∧
        strStartsWith b "LD_PRELOAD=" = true := by
  induction rest with
  | nil => intro prev h; simp [argsGo] at h
  | cons c r ih =>
    intro prev h
    by_cases hc : ((prev == "-E") && strStartsWith c "LD_PRELOAD=") = true
    · have hpc : prev = "-E" := by
        have := (Bool.and_eq_true _ _).mp hc
        simpa using this.1
      have hcs : strStartsWith c "LD_PRELOAD=" = true := ((Bool.and_eq_true _ _).mp hc).2
      exact ⟨0, c, by simp [hpc], by simp, hcs⟩
    · simp only [argsGo, hc] at h
      simp at h
      obtain ⟨i, b, p1, p2, p3⟩ := ih c h
      exact ⟨i + 1, b, p1, p2, p3⟩

/-- The element following a "-E" that starts with LD_PRELOAD= is rewritten
in place to its add_asan form by the argument loop. -/
theorem argsGo_get_pattern (lib : String) (rest : List String) :
    ∀ (prev : String) (i : Nat) (b : String),
      (prev :: rest).get? i = some "-E" → (prev :: rest).get? (i + 1) = some b →
      strStartsWith b "LD_PRELOAD=" = true →
      (argsGo lib prev rest).1.get? i = some (addAsan lib b) := by
  induction rest with
  | nil =>
    intro prev i b h1 h2 h3
    rcases i with _ | i <;> cases h2
  | cons c r ih =>
    intro prev i b h1 h2 h3
    rcases i with _ | i
    · simp only [List.get?] at h1 h2
      injection h1 with h1
      injection h2 with h2
      subst h1
      subst h2
      simp [argsGo, h3]
    · by_cases hc : ((prev == "-E") && strStartsWith c "LD_PRELOAD=") = true
      · rcases i with _ | i2
        · exfalso
          simp only [List.get?] at h1
          injection h1 with h1
          rw [h1] at hc
          simp [strStartsWith_minusE] at hc
        · simp only [argsGo, hc]
          simp only [List.get?]
          exact ih (addAsan lib c) (i2 + 1) b h1 h2 h3
      · simp only [argsGo, hc]
        simp only [List.get?]
        exact ih c i b h1 h2 h3

/-- Closed form of init_with_asan on a nonempty argument vector: the
environment loop output is always kept; the argument vector is the loop
output, with "-E" "LD_PRELOAD=lib" inserted at index 1 when neither loop
rewrote an LD_PRELOAD. -/
theorem init_with_asan_eq (lib a : String) (rest : List String)
    (env : List (String × String)) :
    init_with_asan lib (a :: rest) env =
      some ((if (processEnv lib env).2 || (argsGo lib a rest).2
             then a :: (argsGo lib a rest).1
             else a :: "-E" :: ("LD_PRELOAD=" ++ lib) :: (argsGo lib a rest).1),
            (processEnv lib env).1) := by
  by_cases h : ((processEnv lib env).2 || (argsGo lib a rest).2) = true
  · simp [init_with_asan, processArgs, h]
  · simp [init_with_asan, processArgs, h]

/-- Claim C9, counterexample: with a plain LD_PRELOAD entry in the
process environment list (and no QEMU_SET_ENV or -E pair),
init_with_asan leaves that entry untouched — the sanitizer library is
not prepended to it — and inserts a fresh -E LD_PRELOAD pair instead. -/
theorem env_ld_preload_not_prepended :
    init_with_asan "LIB" ["qemu"] [("LD_PRELOAD", "/orig.so")] =
      some (["qemu", "-E", "LD_PRELOAD=LIB"], [("LD_PRELOAD", "/orig.so")]) := by
  decide

/-- Claim C9 as amended: for every argument vector and environment,
init_with_asan keeps every non-QEMU_SET_ENV environment entry unchanged
(in particular a plain LD_PRELOAD entry is not prepended); rewrites every
LD_PRELOAD piece of every QEMU_SET_ENV value with the library prepended;
prepends the library to every argument that follows a "-E" and starts
with LD_PRELOAD=; and, when no QEMU_SET_ENV piece and no -E pair carried
an LD_PRELOAD, inserts "-E" "LD_PRELOAD=lib" right after the first
argument. -/
theorem init_with_asan_preload_rewrites (lib a : String) (rest : List String)
    (env : List (String × String)) :
    ∃ args2 env2, init_with_asan lib (a :: rest) env = some (args2, env2) ∧
      (∀ kv ∈ env, kv.1 ≠ "QEMU_SET_ENV" → kv ∈ env2) ∧
      (∀ kv ∈ env, kv.1 = "QEMU_SET_ENV" → (kv.1, envMapVal lib kv.2) ∈ env2) ∧
      (∀ i b, (a :: rest).get? i = some "-E" → (a :: rest).get? (i + 1) = some b →
        strStartsWith b "LD_PRELOAD=" = true →
        args2.get? (i + 1) = some (addAsan lib b)) ∧
      ((∀ kv ∈ env, kv.1 = "QEMU_SET_ENV" → envHitVal kv.2 = false) →
        (∀ i b, ¬((a :: rest).get? i = some "-E" ∧ (a :: rest).get? (i + 1) = some b ∧
          strStartsWith b "LD_PRELOAD=" = true)) →
        args2 = a :: "-E" :: ("LD_PRELOAD=" ++ lib) :: rest) := by
  refine ⟨_, _, init_with_asan_eq lib a rest env, ?_, ?_, ?_, ?_⟩
  · intro kv hmem hk
    exact processEnv_mem_other lib env kv hmem hk
  · intro kv hmem hk
    exact processEnv_mem_qemu lib env kv hmem hk
  · intro i b h1 h2 h3
    have hhit : (argsGo lib a rest).2 = true :=
      argsGo_snd_true_of_pattern lib rest a i b h1 h2 h3
    rw [hhit, Bool.or_true, if_pos rfl]
    rcases i with _ | i
    · simp only [List.get?] at h1 ⊢
      injection h1 with h1
      subst h1
      exact argsGo_get_pattern lib rest "-E" 0 b (by simp) h2 h3
    · simp only [List.get?] at h1 h2 ⊢
      exact argsGo_get_pattern lib rest a (i + 1) b h1 h2 h3
  · intro henv hnopat
    have he : (processEnv lib env).2 = false := processEnv_snd_false lib env henv
    have ha : (argsGo lib a rest).2 = false := by
      cases hq : (argsGo lib a rest).2
      · rfl
      · obtain ⟨i, b, p1, p2, p3⟩ := argsGo_pattern_of_snd_true lib rest a hq
        exact absurd ⟨p1, p2, p3⟩ (hnopat i b)
    rw [he, ha]
    simp [argsGo_snd_false_id lib rest a ha]

/-- Concrete discharge of the amended claim C9: a QEMU_SET_ENV value and
a -E pair both carrying LD_PRELOAD are rewritten, and a plain LD_PRELOAD
environment entry passes through unchanged. -/
theorem init_with_asan_preload_rewrites_witness :
    ∃ args2 env2,
      init_with_asan "LIB" ["qemu", "-E", "LD_PRELOAD=/x.so"]
        [("QEMU_SET_ENV", "LD_PRELOAD=/y.so"), ("LD_PRELOAD", "/z.so")] =
        some (args2, env2) ∧
      ("QEMU_SET_ENV", envMapVal "LIB" "LD_PRELOAD=/y.so") ∈ env2 ∧
      ("LD_PRELOAD", "/z.so") ∈ env2 ∧
      args2.get? 2 = some (addAsan "LIB" "LD_PRELOAD=/x.so") := by
  obtain ⟨args2, env2, he, hother, hqemu, hpair, _⟩ :=
    init_with_asan_preload_rewrites "LIB" "qemu" ["-E", "LD_PRELOAD=/x.so"]
      [("QEMU_SET_ENV", "LD_PRELOAD=/y.so"), ("LD_PRELOAD", "/z.so")]
  refine ⟨args2, env2, he, ?_, ?_, ?_⟩
  · exact hqemu ("QEMU_SET_ENV", "LD_PRELOAD=/y.so") (by simp) rfl
  · exact hother ("LD_PRELOAD", "/z.so") (by simp) (by decide)
  · exact hpair 1 "LD_PRELOAD=/x.so" rfl rfl (by decide)
end Asan
